import Mathlib

/-!
Shallow embedding of the autonomous incident agent repository
(`autonomous_incident_agent.py`, `mcp_client.py`, `opsgenie_mcp_server.py`).

Python strings are Lean `String`, exceptions are `Except String`, JSON
payloads that the control flow never inspects are kept as opaque `String`
values carrying their serialized form. Network and model-completion
boundaries (aiohttp posts, the Anthropic completion call, the OpsGenie
REST API) are out-of-scope collaborators and appear as explicit oracle
parameters, exactly at the call sites where the source awaits them.
-/

set_option autoImplicit false

namespace IncidentAgent

/-! ### Tool naming (`autonomous_incident_agent.py`)

`_format_tools_for_claude` exposes each tool under the externally visible
name `f"{tool['server']}_{tool['name']}"`; `_execute_tool_calls` recovers
the pair with `tool_name.split('_', 1)`. -/

/-- The externally visible tool name built by `_format_tools_for_claude`:
the owning server name, an underscore, then the tool's own name. -/
def formatToolName (server tool : String) : String :=
  server ++ "_" ++ tool

/-- Split a character list at the first occurrence of `sep`.
Returns `none` when `sep` does not occur, matching the fact that
Python's `split(sep, 1)` then yields a single element and the
two-variable unpacking in `_execute_tool_calls` raises `ValueError`. -/
def splitOnceAux (sep : Char) : List Char → Option (List Char × List Char)
  | [] => none
  | c :: cs =>
    if c = sep then some ([], cs)
    else
      match splitOnceAux sep cs with
      | none => none
      | some (a, b) => some (c :: a, b)

/-- `tool_name.split('_', 1)` unpacked into `(server_name, actual_tool_name)`
as done in `_execute_tool_calls`; `none` models the `ValueError` raised when
the name holds no underscore. -/
def splitServerTool (s : String) : Option (String × String) :=
  match splitOnceAux '_' s.data with
  | none => none
  | some (a, b) => some (String.mk a, String.mk b)

/-! ### Correlation identifiers (`mcp_client.py`)

`MCPClient._get_next_request_id` pre-increments a single
`_request_id_counter` owned by the client instance; every outgoing
request (handshake, `tools/list`, `tools/call`) on every server
connection draws from this one counter. -/

/-- One call of `_get_next_request_id` on counter state `c`:
the returned identifier and the new counter value. -/
def getNextRequestId (c : Nat) : Nat × Nat :=
  (c + 1, c + 1)

/-- Run a sequence of requests through `_get_next_request_id`, recording for
each the server connection it is issued on (handshakes after a reconnect
are ordinary members of the sequence).  `reqs` lists, in order, the server
name of each successive request; `c` is the current counter value. -/
def assignIds : List String → Nat → List (String × Nat)
  | [], _ => []
  | s :: rest, c =>
    let p := getNextRequestId c
    (s, p.1) :: assignIds rest p.2

/-- The identifiers carried, in order, by the requests issued on the
connection named `server`, for a client whose counter starts at 0. -/
def idsFor (server : String) (reqs : List String) : List Nat :=
  ((assignIds reqs 0).filter (fun p => p.1 == server)).map (·.2)

/-! ### Capability Client operations (`mcp_client.py`)

The client keeps `connected_servers`, a mapping from server name to
connection info; here only the key set matters and it is carried as a
`List String`.  The HTTP round trip performed inside `list_tools` is an
oracle `net : String → Except String (List MCPTool)`: `.error` stands for
any raised exception (non-200 status, error envelope, transport failure). -/

/-- A tool descriptor as returned by a server's `tools/list`
(`name`, `description`; the input schema is carried opaquely). -/
structure MCPTool where
  name : String
  description : String
  inputSchema : String
  deriving Repr, DecidableEq

/-- `MCPClient.list_tools`: raises `ValueError` when `server_name` is not a
key of `connected_servers`, otherwise performs the `tools/list` round trip
(the oracle `net`) and returns its tools or propagates its failure. -/
def listToolsClient (connected : List String)
    (net : String → Except String (List MCPTool)) (server : String) :
    Except String (List MCPTool) :=
  if connected.contains server then net server
  else .error ("Server \x27" ++ server ++ "\x27 is not connected")

/-- `MCPClient.ping_server`: `False` when the server is not connected;
otherwise `True` exactly when the `list_tools` health check did not raise. -/
def pingServer (connected : List String)
    (net : String → Except String (List MCPTool)) (server : String) : Bool :=
  if connected.contains server then
    match listToolsClient connected net server with
    | .ok _ => true
    | .error _ => false
  else false

/-! ### Agent initialization and tool discovery
(`AutonomousIncidentAgent.initialize`, `_discover_tools`)

`initialize` connects every configured server in turn; `connect_server`
re-raises any handshake failure, and `initialize`'s own `except` block
re-raises it again, so the first failure aborts initialization.
`_discover_tools` then lists tools per server, catching and skipping any
server whose listing raises.  The handshake round trip is the oracle
`handshake : String → Except String Unit`. -/

/-- A discovered tool after `_discover_tools` tagged it with
`tool['server']` (the configured key) and `tool['server_name']`
(the configured display name). -/
structure TaggedTool where
  name : String
  description : String
  inputSchema : String
  server : String
  server_name : String
  deriving Repr, DecidableEq

/-- The `for server_name, config in self.mcp_servers.items()` loop of
`initialize`: connect each server in order; the first handshake failure
propagates (`connect_server` and `initialize` both re-raise). -/
def connectAll (handshake : String → Except String Unit) :
    List String → Except String Unit
  | [] => .ok ()
  | s :: rest =>
    match handshake s with
    | .error e => .error e
    | .ok () => connectAll handshake rest

/-- The tagging step of `_discover_tools`: `tool['server'] = server_name`
and `tool['server_name'] = self.mcp_servers[server_name]['name']`
(the display name, here the function `titles`). -/
def tagTool (s : String) (titles : String → String) (t : MCPTool) :
    TaggedTool :=
  ⟨t.name, t.description, t.inputSchema, s, titles s⟩

/-- `_discover_tools`: for each configured server, list its tools and tag
them with the server key and display name; a raised listing is logged and
the server skipped (`continue`). -/
def discoverTools (listTools : String → Except String (List MCPTool))
    (titles : String → String) : List String → List TaggedTool
  | [] => []
  | s :: rest =>
    match listTools s with
    | .ok ts =>
        ts.map (tagTool s titles) ++ discoverTools listTools titles rest
    | .error _ => discoverTools listTools titles rest

/-- The catalog contribution a single server's listing makes: its tagged
tools on success, nothing on a raised listing. -/
def catalogEntriesOf (listTools : String → Except String (List MCPTool))
    (titles : String → String) (s : String) : List TaggedTool :=
  match listTools s with
  | .ok ts => ts.map (tagTool s titles)
  | .error _ => []

/-- `AutonomousIncidentAgent.initialize`: connect all configured servers,
then discover tools; any handshake failure propagates to the caller and
discovery is never reached. -/
def initializeAgent (handshake : String → Except String Unit)
    (listTools : String → Except String (List MCPTool))
    (titles : String → String) (servers : List String) :
    Except String (List TaggedTool) :=
  match connectAll handshake servers with
  | .error e => .error e
  | .ok () => .ok (discoverTools listTools titles servers)

/-! ### Investigation loop
(`_conduct_autonomous_investigation`, `_execute_tool_calls`)

A model response is its `stop_reason` plus content blocks; a content
block is either text or a `tool_use` block carrying `name`, `input`
(kept as its serialized form) and the correlation identifier `id`.
The Anthropic completion call is an oracle from the conversation to
either a response or a raised exception; `mcp_client.call_tool` is an
oracle `callTool server tool input` whose `.error` stands for any raised
exception (not-connected `ValueError`, error envelope, transport failure). -/

/-- One block of a model response's `content`. -/
inductive ContentBlock where
  | text (s : String)
  | toolUse (name : String) (input : String) (id : String)
  deriving Repr, DecidableEq

/-- A completion response: `stop_reason` and `content`. -/
structure ModelResponse where
  stop_reason : String
  content : List ContentBlock
  deriving Repr, DecidableEq

/-- One entry of the `results` list built by `_execute_tool_calls`
(`type` is always `"tool_result"` in the source and is left implicit). -/
structure ToolResultEntry where
  tool_use_id : String
  content : String
  deriving Repr, DecidableEq

/-- A conversation turn.  The source represents tool feedback as a
user-role message whose content is `json.dumps(results, indent=2)`;
the serialization is kept structural here. -/
inductive Message where
  | user (content : String)
  | assistant (content : List ContentBlock)
  | toolFeedback (results : List ToolResultEntry)
  deriving Repr, DecidableEq

/-- The type of the `mcp_client.call_tool` boundary:
server name, tool name, serialized input to result or raised error. -/
def CallToolFn : Type := String → String → String → Except String String

/-- The body of `_execute_tool_calls`'s `try`/`except` for one `tool_use`
block: split the exposed name at the first underscore (no underscore:
the two-variable unpacking raises `ValueError`), dispatch through
`call_tool`, and turn any raised exception into a textual error payload
still keyed by the block's own `tool_use_id`. -/
def dispatchToolCall (callTool : CallToolFn)
    (name input id : String) : ToolResultEntry :=
  match splitServerTool name with
  | none =>
      ⟨id, "Error executing tool: not enough values to unpack (expected 2, got 1)"⟩
  | some (server, actual) =>
      match callTool server actual input with
      | .ok result => ⟨id, result⟩
      | .error e => ⟨id, "Error executing tool: " ++ e⟩

/-- `_execute_tool_calls`: one result per `tool_use` block of the model's
content, in order; non-`tool_use` blocks contribute nothing. -/
def executeToolCalls (callTool : CallToolFn)
    (content : List ContentBlock) : List ToolResultEntry :=
  content.filterMap fun b =>
    match b with
    | .text _ => none
    | .toolUse name input id => some (dispatchToolCall callTool name input id)

/-- The correlation identifiers of the `tool_use` blocks of a content
list, in order. -/
def toolUseIds (content : List ContentBlock) : List String :=
  content.filterMap fun b =>
    match b with
    | .text _ => none
    | .toolUse _ _ id => some id

/-- `response.content[0].text if response.content else "Analysis completed"`. -/
def finalText : List ContentBlock → String
  | [] => "Analysis completed"
  | .text s :: _ => s
  | .toolUse _ _ _ :: _ => ""

/-- `max_iterations = 20  # Prevent infinite loops`. -/
def maxIterations : Nat := 20

/-- Terminal behaviour of `_conduct_autonomous_investigation`:
a normal string return, or a re-raised exception. -/
inductive InvResult where
  | ok (report : String)
  | raise (e : String)
  deriving Repr, DecidableEq

/-- The `while iteration < max_iterations` loop of
`_conduct_autonomous_investigation`, entered with counter value
`iteration`.  Returns the terminal behaviour paired with the number of
completion calls issued from this point on.  One pass: increment the
counter, call the completion oracle; on a raised exception, re-raise when
`iteration >= 3`, else `continue`; on a response, append it, and either
execute the requested tools, append the feedback turn and `continue`, or
return the text as the final report. -/
def investigateAux (oracle : List Message → Except String ModelResponse)
    (callTool : CallToolFn) (messages : List Message) (iteration : Nat) :
    InvResult × Nat :=
  if iteration < maxIterations then
    let it := iteration + 1
    match oracle messages with
    | .error e =>
        if 3 ≤ it then (.raise e, 1)
        else
          let r := investigateAux oracle callTool messages it
          (r.1, r.2 + 1)
    | .ok response =>
        let messages1 := messages ++ [Message.assistant response.content]
        if response.stop_reason == "tool_use" then
          let toolResults := executeToolCalls callTool response.content
          let r := investigateAux oracle callTool
            (messages1 ++ [Message.toolFeedback toolResults]) it
          (r.1, r.2 + 1)
        else
          (.ok (finalText response.content), 1)
  else
    (.ok "Analysis completed (reached iteration limit)", 0)
termination_by maxIterations - iteration

/-- `_conduct_autonomous_investigation`: the loop starting from
`iteration = 0` on the given conversation. -/
def conductAutonomousInvestigation
    (oracle : List Message → Except String ModelResponse)
    (callTool : CallToolFn) (messages : List Message) : InvResult × Nat :=
  investigateAux oracle callTool messages 0

/-! ### OpsGenie MCP server (`opsgenie_mcp_server.py`)

`OpsGenieMCPServer.handle_mcp_request` dispatches on the request's
`method` field alone; the instance keeps no per-session state besides the
fixed tool catalog and the HTTP session, so every request is handled the
same way regardless of history.  The OpsGenie REST calls inside the four
tool handlers are an oracle (`OpsGenieBackend`), `.error` standing for a
raised `Exception` (non-success status or transport failure). -/

/-- One entry of `OpsGenieMCPServer.tools` (input schema kept as its
required-field list; the property descriptions are free text). -/
structure ToolSpec where
  name : String
  description : String
  requiredArgs : List String
  deriving Repr, DecidableEq

/-- The fixed catalog defined in `OpsGenieMCPServer.__init__`. -/
def opsgenieTools : List ToolSpec :=
  [ ⟨"add_note", "Add a note to an OpsGenie alert", ["alert_id", "note"]⟩,
    ⟨"get_alert", "Get details of a specific OpsGenie alert", ["alert_id"]⟩,
    ⟨"update_alert_priority", "Update the priority of an OpsGenie alert",
      ["alert_id", "priority"]⟩,
    ⟨"add_tags", "Add tags to an OpsGenie alert", ["alert_id", "tags"]⟩ ]

/-- The OpsGenie REST boundary used by the four tool handlers; each field
returns the decoded response body or a raised `Exception`. -/
structure OpsGenieBackend where
  add_note : String → String → Except String String
  get_alert : String → Except String String
  update_alert_priority : String → String → Except String String
  add_tags : String → List String → Except String String

/-- The `arguments` object of a `tools/call` request; `none` models an
absent key, on which the handler's subscript raises `KeyError`. -/
structure CallArgs where
  alert_id : Option String := none
  note : Option String := none
  priority : Option String := none
  tags : Option (List String) := none
  deriving Repr, DecidableEq

/-- The `params` object of a request
(`params.get("name")`, `params.get("arguments", {})`). -/
structure CallParams where
  name : Option String := none
  arguments : CallArgs := {}
  deriving Repr, DecidableEq

/-- An incoming JSON-RPC request as read by `handle_mcp_request`:
`request.get("method")`, `request.get("id")`, `request.get("params", {})`. -/
structure RpcRequest where
  method : Option String := none
  id : Option Nat := none
  params : CallParams := {}
  deriving Repr, DecidableEq

/-- A server response payload. -/
inductive ServerPayload where
  /-- `_handle_initialize`: protocol version, capabilities, server info. -/
  | initResult
  /-- `_handle_tools_list`: the catalog. -/
  | toolsList (tools : List ToolSpec)
  /-- `_handle_tools_call`: one text content block with the serialized
  handler result. -/
  | callContent (text : String)
  deriving Repr, DecidableEq

/-- An outgoing JSON-RPC response: a result or an error object. -/
inductive RpcOut where
  | result (id : Option Nat) (payload : ServerPayload)
  | error (id : Option Nat) (code : Int) (message : String)
  deriving Repr, DecidableEq

/-- Whether a response carries an error object. -/
def isErrorOut : RpcOut → Bool
  | .result _ _ => false
  | .error _ _ _ => true

/-- `str(x)` of the optional tool name, as interpolated into
`f"Unknown tool: {tool_name}"`. -/
def strOfOptName : Option String → String
  | some n => n
  | none => "None"

/-- `_handle_tools_call`: route on `params.get("name")` to the four
handlers (each reading its required keys, raising `KeyError` on a missing
one, then performing the REST call), raising `Unknown tool` otherwise;
wrap a successful result as one text content block.  A `.error` value is
an exception propagating to `handle_mcp_request`'s `except`. -/
def handleToolsCall (b : OpsGenieBackend) (reqId : Option Nat)
    (params : CallParams) : Except String RpcOut :=
  let name := params.name
  let args := params.arguments
  let run : Except String String :=
    if name == some "add_note" then
      match args.alert_id, args.note with
      | some a, some n => b.add_note a n
      | _, _ => .error "KeyError"
    else if name == some "get_alert" then
      match args.alert_id with
      | some a => b.get_alert a
      | none => .error "KeyError"
    else if name == some "update_alert_priority" then
      match args.alert_id, args.priority with
      | some a, some p => b.update_alert_priority a p
      | _, _ => .error "KeyError"
    else if name == some "add_tags" then
      match args.alert_id, args.tags with
      | some a, some ts => b.add_tags a ts
      | _, _ => .error "KeyError"
    else
      .error ("Unknown tool: " ++ strOfOptName name)
  match run with
  | .ok result => .ok (.result reqId (.callContent result))
  | .error e => .error e

/-- `handle_mcp_request`: dispatch on the method string; unknown methods
yield the `-32601` error response, and any exception raised by a handler
is caught and turned into the `-32603` error response.  The function is a
pure map of the single request — the server keeps no initialization
state, so handling does not depend on whether a handshake ever occurred. -/
def handleMcpRequest (b : OpsGenieBackend) (req : RpcRequest) : RpcOut :=
  if req.method == some "initialize" then
    .result req.id .initResult
  else if req.method == some "tools/list" then
    .result req.id (.toolsList opsgenieTools)
  else if req.method == some "tools/call" then
    match handleToolsCall b req.id req.params with
    | .ok out => out
    | .error e => .error req.id (-32603) ("Internal error: " ++ e)
  else
    .error req.id (-32601)
      ("Method not found: " ++ strOfOptName req.method)

/-! ## Helper lemmas -/

/-- Splitting at the first separator undoes prepending a separator-free
chunk followed by the separator. -/
theorem splitOnceAux_append (t : List Char) :
    ∀ s : List Char, '_' ∉ s →
      splitOnceAux '_' (s ++ '_' :: t) = some (s, t) := by
  intro s hs
  induction s with
  | nil => simp [splitOnceAux]
  | cons c cs ih =>
    have hc : c ≠ '_' := fun h => hs (h ▸ List.mem_cons_self c cs)
    have hcs : '_' ∉ cs := fun h => hs (List.mem_cons_of_mem c h)
    simp [splitOnceAux, hc, ih hcs]

/-- Recovery of `(server, tool)` from the Claude-facing name, for
underscore-free server names. -/
theorem splitServerTool_formatToolName (S T : String) (hS : '_' ∉ S.data) :
    splitServerTool (formatToolName S T) = some (S, T) := by
  have hdata : (formatToolName S T).data = S.data ++ '_' :: T.data := by
    simp [formatToolName, String.data_append]
  simp only [splitServerTool, hdata, splitOnceAux_append T.data S.data hS]

/-- A dispatched tool result is always keyed by the requesting block's
own `tool_use_id`, on success and on every failure path alike. -/
theorem dispatchToolCall_tool_use_id (callTool : CallToolFn)
    (name input id : String) :
    (dispatchToolCall callTool name input id).tool_use_id = id := by
  unfold dispatchToolCall
  split
  · rfl
  · split <;> rfl

/-! ## Claims -/

/-- C3.  Prefixing a tool name with its underscore-free server name and
an underscore is undone exactly by `_execute_tool_calls`'s split at the
first underscore, and two prefixed names built from underscore-free
server names collide only when both the server and the tool coincide. -/
theorem c3_tool_name_bijection (S T S2 T2 : String)
    (hS : '_' ∉ S.data) (hS2 : '_' ∉ S2.data) :
    splitServerTool (formatToolName S T) = some (S, T) ∧
    (formatToolName S T = formatToolName S2 T2 → S = S2 ∧ T = T2) := by
  refine ⟨splitServerTool_formatToolName S T hS, fun h => ?_⟩
  have h2 : splitServerTool (formatToolName S T) = some (S2, T2) := by
    rw [h, splitServerTool_formatToolName S2 T2 hS2]
  rw [splitServerTool_formatToolName S T hS] at h2
  exact ⟨congrArg Prod.fst (Option.some.inj h2),
    congrArg Prod.snd (Option.some.inj h2)⟩

/-- C3 witness: the round trip and injectivity at the repository's two
server names, with a tool name that itself contains the separator. -/
theorem c3_tool_name_bijection_witness :
    splitServerTool (formatToolName "grafana" "query_metrics")
        = some ("grafana", "query_metrics") ∧
    (formatToolName "grafana" "query_metrics"
        = formatToolName "opsgenie" "add_note" →
      "grafana" = "opsgenie" ∧ "query_metrics" = "add_note") :=
  c3_tool_name_bijection "grafana" "query_metrics" "opsgenie" "add_note"
    (by decide) (by decide)

/-- C5 counterexample: with one client serving the two configured
servers, the handshake on `grafana` consumes identifier 1, so the first
identifier ever issued on the `opsgenie` connection is 2 — the counter is
per client instance, not a per-connection counter starting at 1. -/
theorem c5_counterexample :
    idsFor "opsgenie" ["grafana", "opsgenie"] = [2] ∧ (2 : Nat) ≠ 1 := by
  decide

/-- The identifiers issued by successive `_get_next_request_id` calls are
`c+1, c+2, …` in order. -/
theorem assignIds_map_snd :
    ∀ (reqs : List String) (c : Nat),
      (assignIds reqs c).map (·.2) = List.range' (c + 1) reqs.length := by
  intro reqs
  induction reqs with
  | nil => intro c; rfl
  | cons s rest ih =>
    intro c
    simp [assignIds, getNextRequestId, List.range', ih (c + 1)]

/-- Every identifier assigned from counter state `c` exceeds `c`. -/
theorem assignIds_snd_gt :
    ∀ (reqs : List String) (c : Nat) (p : String × Nat),
      p ∈ assignIds reqs c → c < p.2 := by
  intro reqs
  induction reqs with
  | nil => intro c p hp; simp [assignIds] at hp
  | cons s rest ih =>
    intro c p hp
    simp only [assignIds, getNextRequestId, List.mem_cons] at hp
    rcases hp with h | h
    · simp [h]
    · exact Nat.lt_of_le_of_lt (Nat.le_succ c) (ih (c + 1) p h)

/-- The identifier sequence issued by one client is strictly increasing. -/
theorem assignIds_pairwise :
    ∀ (reqs : List String) (c : Nat),
      (assignIds reqs c).Pairwise (fun p q => p.2 < q.2) := by
  intro reqs
  induction reqs with
  | nil => intro c; simp [assignIds]
  | cons s rest ih =>
    intro c
    simp only [assignIds, getNextRequestId, List.pairwise_cons]
    exact ⟨fun q hq => assignIds_snd_gt rest (c + 1) q hq, ih (c + 1)⟩

/-- C5 (amended).  The identifier counter is owned by the client
instance: the k-th request issued through the client — over whichever
connection, reconnect handshakes included — carries identifier k, so the
sequence of identifiers observed on any single connection is strictly
increasing and never repeats within the client's lifetime. -/
theorem c5_ids_strictly_increasing (reqs : List String) (server : String) :
    (assignIds reqs 0).map (·.2) = List.range' 1 reqs.length ∧
    List.Pairwise (· < ·) (idsFor server reqs) ∧
    (idsFor server reqs).Nodup := by
  have hpair : List.Pairwise (· < ·) (idsFor server reqs) := by
    unfold idsFor
    exact List.pairwise_map.mpr
      ((assignIds_pairwise reqs 0).filter (fun p => p.1 == server))
  exact ⟨assignIds_map_snd reqs 0, hpair,
    hpair.imp (fun h => Nat.ne_of_lt h)⟩

/-- C10.  `ping_server` is total at the public interface — its value is
a plain Boolean for every server name and every behaviour of the
catalog-listing round trip, so an unknown server or a raised listing
yields `false` rather than an exception — and it returns `true` exactly
when the catalog listing (`list_tools`) succeeds. -/
theorem c10_ping_server_total (connected : List String)
    (net : String → Except String (List MCPTool)) (server : String) :
    pingServer connected net server = true ↔
      ∃ ts, listToolsClient connected net server = .ok ts := by
  unfold pingServer listToolsClient
  cases hc : connected.contains server with
  | false => simp
  | true =>
    simp only [if_pos rfl, if_true]
    cases net server <;> simp

/-- C9.  For every model turn, `_execute_tool_calls` produces one result
per `tool_use` block, and the sequence of `tool_use_id` keys on the
results is exactly the sequence of correlation identifiers of the
requests, in order — so the feedback turn built from this list carries
exactly N correlated results for N requests.  Execution in the source is
sequential, so completion order is request order and the correspondence
is positional. -/
theorem c9_feedback_results_correlated (callTool : CallToolFn)
    (content : List ContentBlock) :
    (executeToolCalls callTool content).map (·.tool_use_id)
        = toolUseIds content ∧
    (executeToolCalls callTool content).length
        = (toolUseIds content).length := by
  have h : (executeToolCalls callTool content).map (·.tool_use_id)
      = toolUseIds content := by
    induction content with
    | nil => rfl
    | cons b rest ih =>
      cases b with
      | text s => simpa [executeToolCalls, toolUseIds] using ih
      | toolUse name input id =>
        simpa [executeToolCalls, toolUseIds,
          dispatchToolCall_tool_use_id] using ih
  exact ⟨h, by rw [← h, List.length_map]⟩

/-- One unfolding of the loop on a `tool_use` response: append the
assistant turn and the tool-feedback turn and continue with the next
iteration, whatever the tool executions did. -/
theorem investigateAux_toolUse_step
    (oracle : List Message → Except String ModelResponse)
    (callTool : CallToolFn) (messages : List Message) (iteration : Nat)
    (resp : ModelResponse)
    (hit : iteration < maxIterations)
    (hresp : oracle messages = .ok resp)
    (hstop : resp.stop_reason = "tool_use") :
    investigateAux oracle callTool messages iteration =
      ((investigateAux oracle callTool
          (messages ++ [Message.assistant resp.content,
            Message.toolFeedback (executeToolCalls callTool resp.content)])
          (iteration + 1)).1,
       (investigateAux oracle callTool
          (messages ++ [Message.assistant resp.content,
            Message.toolFeedback (executeToolCalls callTool resp.content)])
          (iteration + 1)).2 + 1) := by
  rw [investigateAux]
  simp [hit, hresp, hstop]

/-- C2.  A failing tool execution in a model turn — a raised
`call_tool` exception, which covers an unknown server prefix, a
not-connected server and a remote tool failure alike — is turned into a
textual error payload in the result list, still keyed by the requesting
block's own `tool_use_id`; and the investigation loop's `tool_use`
branch appends the feedback turn and continues into the next iteration
for every `callTool` behaviour, so the failure never terminates the
loop. -/
theorem c2_tool_failure_never_fatal
    (callTool : CallToolFn) (content : List ContentBlock)
    (name input id server actual e : String)
    (oracle : List Message → Except String ModelResponse)
    (messages : List Message) (iteration : Nat) (resp : ModelResponse)
    (hmem : ContentBlock.toolUse name input id ∈ content)
    (hsplit : splitServerTool name = some (server, actual))
    (hfail : callTool server actual input = .error e)
    (hit : iteration < maxIterations)
    (hresp : oracle messages = .ok resp)
    (hstop : resp.stop_reason = "tool_use") :
    dispatchToolCall callTool name input id
        ∈ executeToolCalls callTool content ∧
    (dispatchToolCall callTool name input id).tool_use_id = id ∧
    (dispatchToolCall callTool name input id).content
        = "Error executing tool: " ++ e ∧
    investigateAux oracle callTool messages iteration =
      ((investigateAux oracle callTool
          (messages ++ [Message.assistant resp.content,
            Message.toolFeedback (executeToolCalls callTool resp.content)])
          (iteration + 1)).1,
       (investigateAux oracle callTool
          (messages ++ [Message.assistant resp.content,
            Message.toolFeedback (executeToolCalls callTool resp.content)])
          (iteration + 1)).2 + 1) := by
  refine ⟨?_, dispatchToolCall_tool_use_id callTool name input id, ?_,
    investigateAux_toolUse_step oracle callTool messages iteration resp
      hit hresp hstop⟩
  · exact List.mem_filterMap.mpr ⟨ContentBlock.toolUse name input id, hmem, rfl⟩
  · simp [dispatchToolCall, hsplit, hfail]

/-- Concrete data for the C2 witness: a `call_tool` boundary that always
raises the not-connected `ValueError`. -/
def c2CallToolW : CallToolFn :=
  fun _ _ _ => .error ("Server \x27grafana\x27 is not connected")

/-- Concrete model turn for the C2 witness: one `tool_use` request. -/
def c2ContentW : List ContentBlock :=
  [ContentBlock.toolUse "grafana_query_metrics" "args" "toolu_01"]

/-- Concrete model response for the C2 witness. -/
def c2RespW : ModelResponse := ⟨"tool_use", c2ContentW⟩

/-- Concrete completion boundary for the C2 witness. -/
def c2OracleW : List Message → Except String ModelResponse :=
  fun _ => .ok c2RespW

/-- Concrete conversation for the C2 witness. -/
def c2MessagesW : List Message := [Message.user "investigate"]

/-- C2 witness: one requested tool whose server connection raises; its
failure appears as a keyed error payload and the loop steps on. -/
theorem c2_tool_failure_never_fatal_witness :
    dispatchToolCall c2CallToolW "grafana_query_metrics" "args" "toolu_01"
        ∈ executeToolCalls c2CallToolW c2ContentW ∧
    (dispatchToolCall c2CallToolW "grafana_query_metrics" "args"
        "toolu_01").tool_use_id = "toolu_01" ∧
    (dispatchToolCall c2CallToolW "grafana_query_metrics" "args"
        "toolu_01").content
        = "Error executing tool: "
            ++ ("Server \x27grafana\x27 is not connected") ∧
    investigateAux c2OracleW c2CallToolW c2MessagesW 0 =
      ((investigateAux c2OracleW c2CallToolW
          (c2MessagesW ++ [Message.assistant c2RespW.content,
            Message.toolFeedback
              (executeToolCalls c2CallToolW c2RespW.content)]) 1).1,
       (investigateAux c2OracleW c2CallToolW
          (c2MessagesW ++ [Message.assistant c2RespW.content,
            Message.toolFeedback
              (executeToolCalls c2CallToolW c2RespW.content)]) 1).2 + 1) :=
  c2_tool_failure_never_fatal c2CallToolW c2ContentW
    "grafana_query_metrics" "args" "toolu_01" "grafana" "query_metrics"
    ("Server \x27grafana\x27 is not connected")
    c2OracleW c2MessagesW 0 c2RespW
    (by decide) (by decide) rfl (by decide) rfl rfl

/-- One unfolding of the loop on a raised completion call: re-raise when
the incremented counter has reached 3, otherwise retry the next iteration
on the unchanged conversation. -/
theorem investigateAux_error_step
    (oracle : List Message → Except String ModelResponse)
    (callTool : CallToolFn) (messages : List Message) (e : String)
    (iteration : Nat)
    (hit : iteration < maxIterations)
    (herr : oracle messages = .error e) :
    investigateAux oracle callTool messages iteration =
      if 3 ≤ iteration + 1 then (InvResult.raise e, 1)
      else ((investigateAux oracle callTool messages (iteration + 1)).1,
            (investigateAux oracle callTool messages (iteration + 1)).2 + 1) := by
  rw [investigateAux]
  simp only [if_pos hit, herr]

/-- C1 (amended).  When the model-completion step raises, the iteration
is retried — on the unchanged conversation — only if the failure occurs
at iteration 1 or 2; a failure at any iteration from 3 on, whether or not
preceded by other failures, immediately aborts the loop, surfaces that
error to the caller, and issues no model-completion call beyond the
failing one.  In particular, failures on the first three iterations
consecutively abort at iteration 3. -/
theorem c1_completion_failure_policy
    (oracle : List Message → Except String ModelResponse)
    (callTool : CallToolFn) (messages : List Message) (e : String)
    (iteration : Nat)
    (hit : iteration < maxIterations)
    (herr : oracle messages = .error e) :
    investigateAux oracle callTool messages iteration =
      if 3 ≤ iteration + 1 then (InvResult.raise e, 1)
      else ((investigateAux oracle callTool messages (iteration + 1)).1,
            (investigateAux oracle callTool messages (iteration + 1)).2 + 1) :=
  investigateAux_error_step oracle callTool messages e iteration hit herr

/-- Completion boundary for the C1 amended-claim witness: every call
raises a transport error. -/
def c1FailOracleW : List Message → Except String ModelResponse :=
  fun _ => .error "API timeout"

/-- Tool boundary for the C1 witnesses: every call succeeds. -/
def c1CallToolW : CallToolFn := fun _ _ _ => .ok "result"

/-- Initial conversation for the C1 witnesses. -/
def c1Msgs0 : List Message := [Message.user "investigate"]

/-- C1 amended-claim witness: a raise at iteration 5 (counter 4 on
entry) aborts at once with exactly one further completion call. -/
theorem c1_completion_failure_policy_witness :
    investigateAux c1FailOracleW c1CallToolW c1Msgs0 4 =
      if 3 ≤ 4 + 1 then (InvResult.raise "API timeout", 1)
      else ((investigateAux c1FailOracleW c1CallToolW c1Msgs0 (4 + 1)).1,
            (investigateAux c1FailOracleW c1CallToolW c1Msgs0 (4 + 1)).2 + 1) :=
  c1_completion_failure_policy c1FailOracleW c1CallToolW c1Msgs0
    "API timeout" 4 (by decide) rfl

/-- Model turn used by the C1 counterexample run. -/
def c1ContentW : List ContentBlock :=
  [ContentBlock.toolUse "grafana_query_metrics" "args" "t1"]

/-- Model response used by the C1 counterexample run. -/
def c1RespW : ModelResponse := ⟨"tool_use", c1ContentW⟩

/-- Completion boundary for the C1 counterexample: the first two
completion calls answer with tool requests, the third raises — counted
through the conversation length, which grows by two turns per
iteration. -/
def c1OracleW : List Message → Except String ModelResponse :=
  fun ms => if 5 ≤ ms.length then .error "Connection error" else .ok c1RespW

/-- The conversation after the first successful iteration of the C1
counterexample run. -/
def c1Msgs1 : List Message :=
  c1Msgs0 ++ [Message.assistant c1RespW.content,
    Message.toolFeedback (executeToolCalls c1CallToolW c1RespW.content)]

/-- The conversation after the second successful iteration of the C1
counterexample run. -/
def c1Msgs2 : List Message :=
  c1Msgs1 ++ [Message.assistant c1RespW.content,
    Message.toolFeedback (executeToolCalls c1CallToolW c1RespW.content)]

/-- C1 counterexample: iterations 1 and 2 complete successfully, the
single completion failure at iteration 3 is not retried — the loop
aborts after exactly 3 completion calls, although 3 consecutive
failures never occurred. -/
theorem c1_counterexample :
    c1OracleW c1Msgs0 = .ok c1RespW ∧
    c1OracleW c1Msgs1 = .ok c1RespW ∧
    c1OracleW c1Msgs2 = .error "Connection error" ∧
    conductAutonomousInvestigation c1OracleW c1CallToolW c1Msgs0
      = (InvResult.raise "Connection error", 3) := by
  refine ⟨rfl, rfl, rfl, ?_⟩
  rw [conductAutonomousInvestigation,
    investigateAux_toolUse_step c1OracleW c1CallToolW c1Msgs0 0 c1RespW
      (by decide) rfl rfl,
    show c1Msgs0 ++ [Message.assistant c1RespW.content,
        Message.toolFeedback (executeToolCalls c1CallToolW c1RespW.content)]
      = c1Msgs1 from rfl,
    investigateAux_toolUse_step c1OracleW c1CallToolW c1Msgs1 1 c1RespW
      (by decide) rfl rfl,
    show c1Msgs1 ++ [Message.assistant c1RespW.content,
        Message.toolFeedback (executeToolCalls c1CallToolW c1RespW.content)]
      = c1Msgs2 from rfl,
    investigateAux_error_step c1OracleW c1CallToolW c1Msgs2 "Connection error"
      2 (by decide) rfl]
  simp

/-- When the counter has reached the cap the loop exits with the
iteration-limit report and performs no completion call. -/
theorem investigateAux_limit
    (oracle : List Message → Except String ModelResponse)
    (callTool : CallToolFn) (messages : List Message) (iteration : Nat)
    (hit : ¬ iteration < maxIterations) :
    investigateAux oracle callTool messages iteration
      = (InvResult.ok "Analysis completed (reached iteration limit)", 0) := by
  rw [investigateAux]
  simp only [if_neg hit]

/-- If every completion response requests tools, the loop runs exactly
the remaining number of iterations and exits with the limit report. -/
theorem investigateAux_all_toolUse
    (oracle : List Message → Except String ModelResponse)
    (callTool : CallToolFn)
    (h : ∀ ms, ∃ r, oracle ms = .ok r ∧ r.stop_reason = "tool_use") :
    ∀ (n : Nat) (messages : List Message) (iteration : Nat),
      iteration + n = maxIterations →
      investigateAux oracle callTool messages iteration
        = (InvResult.ok "Analysis completed (reached iteration limit)", n) := by
  intro n
  induction n with
  | zero =>
    intro messages iteration hiter
    exact investigateAux_limit oracle callTool messages iteration (by omega)
  | succ k ih =>
    intro messages iteration hiter
    obtain ⟨r, hr, hs⟩ := h messages
    rw [investigateAux_toolUse_step oracle callTool messages iteration r
        (by omega) hr hs,
      ih _ (iteration + 1) (by omega)]

/-- C4.  If the model requests tools on every iteration — never yielding
a final answer — the loop terminates after exactly 20 completion calls
with the iteration-limit report, returned as a normal result, not as a
raised error. -/
theorem c4_iteration_cap
    (oracle : List Message → Except String ModelResponse)
    (callTool : CallToolFn) (messages : List Message)
    (h : ∀ ms, ∃ r, oracle ms = .ok r ∧ r.stop_reason = "tool_use") :
    conductAutonomousInvestigation oracle callTool messages
      = (InvResult.ok "Analysis completed (reached iteration limit)", 20) :=
  investigateAux_all_toolUse oracle callTool h maxIterations messages 0 rfl

/-- Model response for the C4 witness. -/
def c4RespW : ModelResponse :=
  ⟨"tool_use", [ContentBlock.toolUse "grafana_query_metrics" "args" "t1"]⟩

/-- Completion boundary for the C4 witness: always requests a tool. -/
def c4OracleW : List Message → Except String ModelResponse :=
  fun _ => .ok c4RespW

/-- C4 witness: with a model that always requests tools and a tool
boundary that always succeeds, the run exits at the cap. -/
theorem c4_iteration_cap_witness :
    conductAutonomousInvestigation c4OracleW c1CallToolW
        [Message.user "investigate"]
      = (InvResult.ok "Analysis completed (reached iteration limit)", 20) :=
  c4_iteration_cap c4OracleW c1CallToolW [Message.user "investigate"]
    (fun _ => ⟨c4RespW, rfl, rfl⟩)

/-- Every discovered catalog entry is tagged with one of the configured
server names. -/
theorem discoverTools_server_mem
    (listTools : String → Except String (List MCPTool))
    (titles : String → String) :
    ∀ (servers : List String) (t : TaggedTool),
      t ∈ discoverTools listTools titles servers → t.server ∈ servers := by
  intro servers
  induction servers with
  | nil => intro t ht; simp [discoverTools] at ht
  | cons a rest ih =>
    intro t ht
    simp only [discoverTools] at ht
    cases h : listTools a with
    | ok ts =>
      rw [h] at ht
      rcases List.mem_append.mp ht with h1 | h1
      · obtain ⟨u, _, hu⟩ := List.mem_map.mp h1
        subst hu
        exact List.mem_cons_self a rest
      · exact List.mem_cons_of_mem a (ih t h1)
    | error e =>
      rw [h] at ht
      exact List.mem_cons_of_mem a (ih t ht)

/-- A failing handshake anywhere in the configured list makes
`connect_server`'s exception propagate out of the connection loop. -/
theorem connectAll_error_of_mem (handshake : String → Except String Unit) :
    ∀ (servers : List String) (s : String) (err : String),
      s ∈ servers → handshake s = .error err →
      ∃ e2, connectAll handshake servers = .error e2 := by
  intro servers
  induction servers with
  | nil => intro s err hmem _; simp at hmem
  | cons a rest ih =>
    intro s err hmem herr
    cases h : handshake a with
    | error e => exact ⟨e, by simp [connectAll, h]⟩
    | ok u =>
      rcases List.mem_cons.mp hmem with rfl | hmem2
      · rw [herr] at h; cases h
      · obtain ⟨e2, h2⟩ := ih s err hmem2 herr
        exact ⟨e2, by simp [connectAll, h, h2]⟩

/-- C6 (amended).  A handshake failure on any configured server aborts
agent initialization — `initialize` re-raises, so no catalog is produced
at all.  Graceful degradation applies one level down, at the catalog
build: `_discover_tools` never raises, and for each configured server
the catalog's entries tagged with that server are exactly what its own
successful listing contributed — in particular a server whose listing
raises contributes no entries. -/
theorem c6_handshake_aborts_discovery_degrades
    (handshake : String → Except String Unit)
    (listTools : String → Except String (List MCPTool))
    (titles : String → String) (servers : List String) (s err : String)
    (hnd : servers.Nodup) (hmem : s ∈ servers)
    (herr : handshake s = .error err) :
    (∃ e2, initializeAgent handshake listTools titles servers = .error e2) ∧
    (discoverTools listTools titles servers).filter (fun t => t.server == s)
      = catalogEntriesOf listTools titles s := by
  constructor
  · obtain ⟨e2, h2⟩ := connectAll_error_of_mem handshake servers s err hmem herr
    exact ⟨e2, by simp [initializeAgent, h2]⟩
  · clear herr
    induction servers with
    | nil => simp at hmem
    | cons a rest ih =>
      have hanotin : a ∉ rest := (List.nodup_cons.mp hnd).1
      have hndrest : rest.Nodup := (List.nodup_cons.mp hnd).2
      rcases List.mem_cons.mp hmem with rfl | hmem2
      · have hrest : (discoverTools listTools titles rest).filter
            (fun t => t.server == s) = [] := by
          refine List.filter_eq_nil_iff.mpr fun t ht => ?_
          have := discoverTools_server_mem listTools titles rest t ht
          simp only [beq_iff_eq]
          intro hts
          exact hanotin (hts ▸ this)
        cases h : listTools s with
        | ok ts =>
          have hkeep : (ts.map (tagTool s titles)).filter
              (fun t => t.server == s) = ts.map (tagTool s titles) := by
            refine List.filter_eq_self.mpr fun t ht => ?_
            obtain ⟨u, _, hu⟩ := List.mem_map.mp ht
            subst hu
            simp [tagTool]
          simp [discoverTools, catalogEntriesOf, h, List.filter_append,
            hkeep, hrest]
        | error e =>
          simp [discoverTools, catalogEntriesOf, h, hrest]
      · have hsa : s ≠ a := fun h => hanotin (h ▸ hmem2)
        have htail := ih hndrest hmem2
        cases h : listTools a with
        | ok ts =>
          have hdrop : (ts.map (tagTool a titles)).filter
              (fun t => t.server == s) = [] := by
            refine List.filter_eq_nil_iff.mpr fun t ht => ?_
            obtain ⟨u, _, hu⟩ := List.mem_map.mp ht
            subst hu
            simp [tagTool]
            exact fun hc => hsa hc.symm
          simp [discoverTools, h, List.filter_append, hdrop, htail]
        | error e =>
          simp [discoverTools, h, htail]

/-- Handshake boundary of the C6 scenario: `grafana` succeeds,
`opsgenie` fails its handshake. -/
def c6HandshakeW : String → Except String Unit :=
  fun s => if s == "grafana" then .ok ()
    else .error "HTTP 500: Internal Server Error"

/-- Listing boundary of the C6 scenario: the connected `grafana` server
lists one tool; `opsgenie`, never connected, raises. -/
def c6ListToolsW : String → Except String (List MCPTool) :=
  fun s => if s == "grafana"
    then .ok [⟨"query_metrics", "Query Grafana metrics over a time range",
      "object"⟩]
    else .error ("Server \x27opsgenie\x27 is not connected")

/-- Display names of the C6 scenario. -/
def c6TitlesW : String → String :=
  fun s => if s == "grafana" then "Grafana MCP Server"
    else "OpsGenie MCP Server"

/-- C6 counterexample: with `grafana` connecting fine and `opsgenie`
failing its handshake, `initialize` does not succeed for the healthy
server — the handshake exception propagates and no catalog is built. -/
theorem c6_counterexample :
    c6HandshakeW "grafana" = .ok () ∧
    initializeAgent c6HandshakeW c6ListToolsW c6TitlesW
        ["grafana", "opsgenie"]
      = .error "HTTP 500: Internal Server Error" :=
  ⟨rfl, rfl⟩

/-- C6 witness: the amended claim at the concrete two-server scenario. -/
theorem c6_handshake_aborts_discovery_degrades_witness :
    (∃ e2, initializeAgent c6HandshakeW c6ListToolsW c6TitlesW
        ["grafana", "opsgenie"] = .error e2) ∧
    (discoverTools c6ListToolsW c6TitlesW ["grafana", "opsgenie"]).filter
        (fun t => t.server == "opsgenie")
      = catalogEntriesOf c6ListToolsW c6TitlesW "opsgenie" :=
  c6_handshake_aborts_discovery_degrades c6HandshakeW c6ListToolsW c6TitlesW
    ["grafana", "opsgenie"] "opsgenie" "HTTP 500: Internal Server Error"
    (by decide) (by decide) rfl

/-- A backend whose REST calls all succeed. -/
def trivialBackend : OpsGenieBackend :=
  ⟨fun _ _ => .ok "ok", fun _ => .ok "ok",
   fun _ _ => .ok "ok", fun _ _ => .ok "ok"⟩

/-- A backend whose REST calls all raise. -/
def failingBackend : OpsGenieBackend :=
  ⟨fun _ _ => .error "boom", fun _ => .error "boom",
   fun _ _ => .error "boom", fun _ _ => .error "boom"⟩

/-- C7 counterexample: the server keeps no initialization state —
`handle_mcp_request` is a function of the single request — so a
`tools/list` request handled before any handshake has occurred is
answered with the full catalog, not with a `NotInitialized` error. -/
theorem c7_counterexample :
    handleMcpRequest trivialBackend ⟨some "tools/list", some 1, {}⟩
      = .result (some 1) (.toolsList opsgenieTools) ∧
    isErrorOut
        (handleMcpRequest trivialBackend ⟨some "tools/list", some 1, {}⟩)
      = false :=
  ⟨rfl, rfl⟩

/-- C7 (amended).  The Capability Server enforces no
`Uninitialized → Ready` state machine: request handling is a pure
function of the single request, so the handshake, catalog-listing and
invocation methods are each accepted at any time, whether or not a
handshake has ever occurred, and no `NotInitialized` error exists; a
method outside the fixed set fails with the method-not-found error
`-32601`. -/
theorem c7_no_initialization_gate (b : OpsGenieBackend) (id : Option Nat)
    (p : CallParams) (m : String)
    (h1 : m ≠ "initialize") (h2 : m ≠ "tools/list") (h3 : m ≠ "tools/call") :
    handleMcpRequest b ⟨some "initialize", id, p⟩ = .result id .initResult ∧
    handleMcpRequest b ⟨some "tools/list", id, p⟩
      = .result id (.toolsList opsgenieTools) ∧
    handleMcpRequest b ⟨some m, id, p⟩
      = .error id (-32601) ("Method not found: " ++ m) := by
  refine ⟨rfl, rfl, ?_⟩
  simp [handleMcpRequest, strOfOptName, h1, h2, h3]

/-- C7 witness: the amended claim at a concrete request set. -/
theorem c7_no_initialization_gate_witness :
    handleMcpRequest trivialBackend ⟨some "initialize", some 2, {}⟩
      = .result (some 2) .initResult ∧
    handleMcpRequest trivialBackend ⟨some "tools/list", some 2, {}⟩
      = .result (some 2) (.toolsList opsgenieTools) ∧
    handleMcpRequest trivialBackend ⟨some "ping", some 2, {}⟩
      = .error (some 2) (-32601) ("Method not found: " ++ "ping") :=
  c7_no_initialization_gate trivialBackend (some 2) {} "ping"
    (by decide) (by decide) (by decide)

/-- A successful `_handle_tools_call` always wraps its payload as a
result envelope carrying the caller's identifier. -/
theorem handleToolsCall_ok (b : OpsGenieBackend) (reqId : Option Nat)
    (params : CallParams) (out : RpcOut)
    (h : handleToolsCall b reqId params = .ok out) :
    ∃ s, out = .result reqId (.callContent s) := by
  unfold handleToolsCall at h
  dsimp only at h
  split at h
  · exact ⟨_, (Except.ok.inj h).symm⟩
  · cases h

/-- The only error codes `handle_mcp_request` ever emits are `-32601`
(method not found) and `-32603` (internal error). -/
theorem handleMcpRequest_error_codes (b : OpsGenieBackend)
    (req : RpcRequest) (i : Option Nat) (c : Int) (msg : String)
    (h : handleMcpRequest b req = .error i c msg) :
    c = -32601 ∨ c = -32603 := by
  unfold handleMcpRequest at h
  split at h
  · cases h
  · split at h
    · cases h
    · split at h
      · split at h
        · next out hcall =>
          obtain ⟨s, rfl⟩ := handleToolsCall_ok b req.id req.params out hcall
          cases h
        · exact Or.inr (RpcOut.error.inj h).2.1.symm
      · exact Or.inl (RpcOut.error.inj h).2.1.symm

/-- C8 counterexample: a `tools/call` for an absent tool and a
`tools/call` whose handler raises are both answered with the same
`-32603` internal-error code — the server has no distinct tool-not-found
or tool-execution-failed codes. -/
theorem c8_counterexample :
    handleMcpRequest trivialBackend
        ⟨some "tools/call", some 7, ⟨some "bogus", {}⟩⟩
      = .error (some 7) (-32603) "Internal error: Unknown tool: bogus" ∧
    handleMcpRequest failingBackend
        ⟨some "tools/call", some 8,
          ⟨some "add_note", ⟨some "a1", some "note text", none, none⟩⟩⟩
      = .error (some 8) (-32603) "Internal error: boom" :=
  ⟨rfl, rfl⟩

/-- C8 (amended).  Both failure shapes of tool invocation collapse onto
the single internal-error code `-32603`: an absent tool name yields
`Internal error: Unknown tool: <name>` and a raising handler yields
`Internal error: <cause>` — the cause is preserved in the message, never
swallowed — and every error response the server emits carries one of the
two codes `-32601` and `-32603`. -/
theorem c8_error_codes_collapsed (b : OpsGenieBackend) (id i : Option Nat)
    (args : CallArgs) (n a note e msg : String) (req : RpcRequest) (c : Int)
    (hn : n ∉ (["add_note", "get_alert", "update_alert_priority",
      "add_tags"] : List String))
    (hfail : b.add_note a note = .error e)
    (herr : handleMcpRequest b req = .error i c msg) :
    handleMcpRequest b ⟨some "tools/call", id, ⟨some n, args⟩⟩
      = .error id (-32603)
          ("Internal error: " ++ ("Unknown tool: " ++ n)) ∧
    handleMcpRequest b ⟨some "tools/call", id,
        ⟨some "add_note", ⟨some a, some note, none, none⟩⟩⟩
      = .error id (-32603) ("Internal error: " ++ e) ∧
    (c = -32601 ∨ c = -32603) := by
  have h1 : n ≠ "add_note" := fun h => hn (by simp [h])
  have h2 : n ≠ "get_alert" := fun h => hn (by simp [h])
  have h3 : n ≠ "update_alert_priority" := fun h => hn (by simp [h])
  have h4 : n ≠ "add_tags" := fun h => hn (by simp [h])
  refine ⟨?_, ?_, handleMcpRequest_error_codes b req i c msg herr⟩
  · simp [handleMcpRequest, handleToolsCall, strOfOptName, h1, h2, h3, h4]
  · simp [handleMcpRequest, handleToolsCall, hfail]

/-- C8 witness: the amended claim at concrete requests against the
always-raising backend. -/
theorem c8_error_codes_collapsed_witness :
    handleMcpRequest failingBackend
        ⟨some "tools/call", some 7, ⟨some "bogus", {}⟩⟩
      = .error (some 7) (-32603)
          ("Internal error: " ++ ("Unknown tool: " ++ "bogus")) ∧
    handleMcpRequest failingBackend
        ⟨some "tools/call", some 7,
          ⟨some "add_note", ⟨some "a1", some "note text", none, none⟩⟩⟩
      = .error (some 7) (-32603) ("Internal error: " ++ "boom") ∧
    ((-32601 : Int) = -32601 ∨ (-32601 : Int) = -32603) :=
  c8_error_codes_collapsed failingBackend (some 7) (some 9) {}
    "bogus" "a1" "note text" "boom" "Method not found: status"
    ⟨some "status", some 9, {}⟩ (-32601)
    (by decide) rfl rfl

end IncidentAgent
